import Mathlib

/-!
Shallow embedding of the bouncing-word animation widget
(`BouncingWord` / `BouncingAnimation` components).

Numbers are modelled as rationals; the per-frame animation updater, the
collision-triggered word/color selection and the scheduling gates are
translated directly from the source.  `Math.random()` results are passed
in explicitly as rationals in `[0, 1)`.
-/

namespace SelfBounce

/-- 2D position `{x, y}` (interface `Position`). -/
structure Position where
  x : ℚ
  y : ℚ
  deriving Repr, DecidableEq

/-- 2D velocity `{x, y}` (interface `Velocity`). -/
structure Velocity where
  x : ℚ
  y : ℚ
  deriving Repr, DecidableEq

/-- Cached dimensions: container width/height and word width/height,
    as held in the `dimensions` state. -/
structure Dimensions where
  width : ℚ
  height : ℚ
  wordWidth : ℚ
  wordHeight : ℚ
  deriving Repr, DecidableEq

/-- Fixed word pool of the `BouncingWord` variants. -/
def WORD_POOL : List String :=
  ["self", "values", "wants", "triggers", "desires", "fears",
   "motives", "ego", "shadows", "memories", "dreams", "hopes",
   "limits", "growth", "truth", "masks", "core", "essence"]

/-- Fixed color pool of the color variant. -/
def COLOR_POOL : List String :=
  ["hsl(0 0% 100%)",
   "hsl(45 100% 75%)",
   "hsl(120 45% 70%)",
   "hsl(300 60% 80%)",
   "hsl(30 85% 75%)",
   "hsl(180 55% 75%)",
   "hsl(60 80% 80%)",
   "hsl(320 50% 85%)"]

/-- `const SPEED = 100` (pixels per second), used by both `BouncingWord`
    variants; the landing-page variant uses 80 instead, so the frame
    functions below take the speed as a parameter. -/
def SPEED : ℚ := 100

/-- `changeWord`: filter the pool down to the words different from the
    current one and pick index `Math.floor(r * length)`, where `r` is the
    `Math.random()` draw. -/
def changeWord (currentWord : String) (r : ℚ) : String :=
  let availableWords := WORD_POOL.filter (fun word => word != currentWord)
  availableWords.getD (⌊r * (availableWords.length : ℚ)⌋).toNat ""

/-- `changeWordAndColor` of the color variant: the word choice of
    `changeWord` plus an independent color choice from `COLOR_POOL`
    excluding the current color (`r1`, `r2` are the two random draws). -/
def changeWordAndColor (currentWord currentColor : String) (r1 r2 : ℚ) :
    String × String :=
  let availableWords := WORD_POOL.filter (fun word => word != currentWord)
  let newWord := availableWords.getD (⌊r1 * (availableWords.length : ℚ)⌋).toNat ""
  let availableColors := COLOR_POOL.filter (fun color => color != currentColor)
  let newColor := availableColors.getD (⌊r2 * (availableColors.length : ℚ)⌋).toNat ""
  (newWord, newColor)

/-- Result of one run of the `setPosition` updater inside `animate`:
    the clamped position, the (possibly reflected) velocity and whether a
    collision was detected this frame. -/
structure FrameResult where
  position : Position
  velocity : Velocity
  collisionDetected : Bool
  deriving Repr, DecidableEq

/-- The body of the `setPosition(prevPosition => ...)` updater in
    `animate`: candidate position `prev + velocity * speed * deltaTime`
    per axis, then the horizontal boundary check, then the vertical one,
    each clamping the candidate and forcing the sign of the velocity
    component.  When no clamp fires the velocity is returned unchanged
    (the source only calls `setVelocity` on collision, and `newVelocity`
    equals `velocity` in that case). -/
def updatePosition (speed : ℚ) (dimensions : Dimensions) (velocity : Velocity)
    (prevPosition : Position) (deltaTime : ℚ) : FrameResult :=
  let newX := prevPosition.x + velocity.x * speed * deltaTime
  let newY := prevPosition.y + velocity.y * speed * deltaTime
  let hres : ℚ × ℚ × Bool :=
    if newX ≤ 0 then
      (0, |velocity.x|, true)
    else if newX ≥ dimensions.width - dimensions.wordWidth then
      (dimensions.width - dimensions.wordWidth, -|velocity.x|, true)
    else
      (newX, velocity.x, false)
  let vres : ℚ × ℚ × Bool :=
    if newY ≤ 0 then
      (0, |velocity.y|, true)
    else if newY ≥ dimensions.height - dimensions.wordHeight then
      (dimensions.height - dimensions.wordHeight, -|velocity.y|, true)
    else
      (newY, velocity.y, false)
  { position := ⟨hres.1, vres.1⟩
    velocity := ⟨hres.2.1, vres.2.1⟩
    collisionDetected := hres.2.2 || vres.2.2 }

/-- The state owned by the component that the animation loop reads and
    writes: `lastTimeRef` (sentinel 0 when unset), `position`, `velocity`
    and `currentWord`. -/
structure AnimState where
  lastTime : ℚ
  position : Position
  velocity : Velocity
  currentWord : String
  deriving Repr, DecidableEq

/-- One call of `animate(currentTime)`: if `lastTimeRef` is still the
    sentinel 0 it is first set to `currentTime`; `deltaTime` is
    `(currentTime - lastTime) / 1000` seconds; then the `setPosition`
    updater runs and, on collision, the velocity is persisted and
    `changeWord` fires (with random draw `r`). -/
def animate (speed : ℚ) (dimensions : Dimensions) (r : ℚ)
    (s : AnimState) (currentTime : ℚ) : AnimState :=
  let lastTime := if s.lastTime = 0 then currentTime else s.lastTime
  let deltaTime := (currentTime - lastTime) / 1000
  let res := updatePosition speed dimensions s.velocity s.position deltaTime
  { lastTime := currentTime
    position := res.position
    velocity := res.velocity
    currentWord :=
      if res.collisionDetected then changeWord s.currentWord r else s.currentWord }

/-- Whether the animation-loop effect schedules a frame: the effect
    returns early when `!isMotionEnabled`, and `requestAnimationFrame`
    is only called when `dimensions.width > 0 && dimensions.height > 0`.
    The word dimensions are not consulted. -/
def startLoop (isMotionEnabled : Bool) (dimensions : Dimensions) : Bool :=
  isMotionEnabled && (decide (0 < dimensions.width) && decide (0 < dimensions.height))

/-- One scheduling opportunity: when the gate allows it, `animate` runs,
    otherwise the state is untouched. -/
def tick (isMotionEnabled : Bool) (speed : ℚ) (dimensions : Dimensions)
    (r : ℚ) (s : AnimState) (currentTime : ℚ) : AnimState :=
  if startLoop isMotionEnabled dimensions then
    animate speed dimensions r s currentTime
  else s

/-- A sequence of scheduling opportunities at the given timestamps. -/
def runTicks (isMotionEnabled : Bool) (speed : ℚ) (dimensions : Dimensions)
    (r : ℚ) (s : AnimState) : List ℚ → AnimState
  | [] => s
  | t :: rest =>
      runTicks isMotionEnabled speed dimensions r
        (tick isMotionEnabled speed dimensions r s t) rest

/-- Iterate the `setPosition` updater over a list of frame intervals,
    threading position and velocity. -/
def runFrames (speed : ℚ) (dimensions : Dimensions) :
    Position → Velocity → List ℚ → Position × Velocity
  | p, v, [] => (p, v)
  | p, v, dt :: rest =>
      let res := updatePosition speed dimensions v p dt
      runFrames speed dimensions res.position res.velocity rest

/-- The candidate position of a frame stays strictly inside both bounds,
    so no boundary clamp fires. -/
def insideAfter (speed : ℚ) (dimensions : Dimensions) (v : Velocity)
    (p : Position) (dt : ℚ) : Prop :=
  0 < p.x + v.x * speed * dt ∧
  p.x + v.x * speed * dt < dimensions.width - dimensions.wordWidth ∧
  0 < p.y + v.y * speed * dt ∧
  p.y + v.y * speed * dt < dimensions.height - dimensions.wordHeight

/-- No boundary clamp fires in any frame of the run. -/
def noClampRun (speed : ℚ) (dimensions : Dimensions) :
    Position → Velocity → List ℚ → Prop
  | _, _, [] => True
  | p, v, dt :: rest =>
      insideAfter speed dimensions v p dt ∧
      noClampRun speed dimensions
        ⟨p.x + v.x * speed * dt, p.y + v.y * speed * dt⟩ v rest

/-! ## Theorems -/

/-- C2: container 500×300, label 100×50, position (480, 10), velocity
    (1, 1), deltaTime 0.1 s, speed 100 px/s: one frame update produces
    position (400, 20), velocity (−1, 1) and a detected collision (which
    is what triggers the label change). -/
theorem scenario_clamp_right :
    updatePosition 100 ⟨500, 300, 100, 50⟩ ⟨1, 1⟩ ⟨480, 10⟩ (1 / 10) =
      ⟨⟨400, 20⟩, ⟨-1, 1⟩, true⟩ := by
  norm_num [updatePosition]

/-- C9: a frame update changes at most the sign of each velocity
    component: the per-axis magnitude after the boundary checks equals
    the magnitude before them, for every input. -/
theorem reflection_sign_only (speed : ℚ) (dimensions : Dimensions)
    (velocity : Velocity) (prevPosition : Position) (deltaTime : ℚ) :
    |(updatePosition speed dimensions velocity prevPosition deltaTime).velocity.x| =
        |velocity.x| ∧
    |(updatePosition speed dimensions velocity prevPosition deltaTime).velocity.y| =
        |velocity.y| := by
  unfold updatePosition
  constructor <;> dsimp only <;>
    (split
     · simp [abs_abs]
     · split <;> simp [abs_abs])

/-- C8: with motion disabled, no update is scheduled, so any sequence of
    scheduling opportunities leaves the whole animation state (in
    particular the position) unchanged. -/
theorem motion_disabled_idle (speed : ℚ) (dimensions : Dimensions) (r : ℚ)
    (s : AnimState) (times : List ℚ) :
    runTicks false speed dimensions r s times = s := by
  induction times generalizing s with
  | nil => rfl
  | cons t rest ih =>
      have hstep : tick false speed dimensions r s t = s := by
        simp [tick, startLoop]
      simpa [runTicks, hstep] using ih s

/-- C1 counterexample: the claim quantifies over every prior position and
    velocity with only "known dimensions", but the scheduling gate never
    compares the word box to the container.  With container 100×100 and
    word 200×50 (word wider than container), position (50, 50), velocity
    (0, 0) and deltaTime 0 (non-negative), the stored x is −100, violating
    `0 ≤ x`. -/
theorem position_in_bounds_counterexample :
    ¬ (0 ≤ (updatePosition 100 ⟨100, 100, 200, 50⟩ ⟨0, 0⟩ ⟨50, 50⟩ 0).position.x) := by
  norm_num [updatePosition]

/-- C1 (amended): whenever the measured word box fits in the container
    (wordWidth ≤ width and wordHeight ≤ height), the position stored
    after the boundary check lies in
    `[0, width − wordWidth] × [0, height − wordHeight]`, for every prior
    position, velocity and deltaTime. -/
theorem position_in_bounds (speed : ℚ) (dimensions : Dimensions)
    (velocity : Velocity) (prevPosition : Position) (deltaTime : ℚ)
    (hw : dimensions.wordWidth ≤ dimensions.width)
    (hh : dimensions.wordHeight ≤ dimensions.height) :
    0 ≤ (updatePosition speed dimensions velocity prevPosition deltaTime).position.x ∧
    (updatePosition speed dimensions velocity prevPosition deltaTime).position.x ≤
      dimensions.width - dimensions.wordWidth ∧
    0 ≤ (updatePosition speed dimensions velocity prevPosition deltaTime).position.y ∧
    (updatePosition speed dimensions velocity prevPosition deltaTime).position.y ≤
      dimensions.height - dimensions.wordHeight := by
  simp only [updatePosition]
  refine ⟨?_, ?_, ?_, ?_⟩ <;>
    (split
     · dsimp only
       linarith
     · split <;> dsimp only <;> linarith)

/-- C1 witness: the bounds hold at the concrete scenario frame. -/
theorem position_in_bounds_witness :
    0 ≤ (updatePosition 100 ⟨500, 300, 100, 50⟩ ⟨1, 1⟩ ⟨480, 10⟩ (1 / 10)).position.x ∧
    (updatePosition 100 ⟨500, 300, 100, 50⟩ ⟨1, 1⟩ ⟨480, 10⟩ (1 / 10)).position.x ≤
      (500 : ℚ) - 100 ∧
    0 ≤ (updatePosition 100 ⟨500, 300, 100, 50⟩ ⟨1, 1⟩ ⟨480, 10⟩ (1 / 10)).position.y ∧
    (updatePosition 100 ⟨500, 300, 100, 50⟩ ⟨1, 1⟩ ⟨480, 10⟩ (1 / 10)).position.y ≤
      (300 : ℚ) - 50 :=
  position_in_bounds 100 ⟨500, 300, 100, 50⟩ ⟨1, 1⟩ ⟨480, 10⟩ (1 / 10)
    (by norm_num) (by norm_num)

/-- C3 counterexample: with velocity component 0 the clamp can fire
    (candidate x equals 0) while the post-update `vx` is `|0| = 0`, not
    strictly positive, so the reflection law fails as universally
    stated. -/
theorem reflection_law_counterexample :
    (0 : ℚ) + 0 * 100 * (1 / 10) ≤ 0 ∧
    (updatePosition 100 ⟨500, 300, 100, 50⟩ ⟨0, 1⟩ ⟨0, 100⟩ (1 / 10)).position.x = 0 ∧
    ¬ 0 < (updatePosition 100 ⟨500, 300, 100, 50⟩ ⟨0, 1⟩ ⟨0, 100⟩ (1 / 10)).velocity.x := by
  norm_num [updatePosition]

/-- C3 (amended): for nonzero velocity components (as initialization
    guarantees), if the candidate x triggered the low clamp then the
    post-update `vx` is positive; if it triggered the high clamp then
    `vx` is negative; symmetrically for y. -/
theorem reflection_law (speed : ℚ) (dimensions : Dimensions)
    (velocity : Velocity) (prevPosition : Position) (deltaTime : ℚ)
    (hvx : velocity.x ≠ 0) (hvy : velocity.y ≠ 0) :
    (prevPosition.x + velocity.x * speed * deltaTime ≤ 0 →
      0 < (updatePosition speed dimensions velocity prevPosition deltaTime).velocity.x) ∧
    (¬ prevPosition.x + velocity.x * speed * deltaTime ≤ 0 →
      prevPosition.x + velocity.x * speed * deltaTime ≥
        dimensions.width - dimensions.wordWidth →
      (updatePosition speed dimensions velocity prevPosition deltaTime).velocity.x < 0) ∧
    (prevPosition.y + velocity.y * speed * deltaTime ≤ 0 →
      0 < (updatePosition speed dimensions velocity prevPosition deltaTime).velocity.y) ∧
    (¬ prevPosition.y + velocity.y * speed * deltaTime ≤ 0 →
      prevPosition.y + velocity.y * speed * deltaTime ≥
        dimensions.height - dimensions.wordHeight →
      (updatePosition speed dimensions velocity prevPosition deltaTime).velocity.y < 0) := by
  simp only [updatePosition]
  refine ⟨fun h1 => ?_, fun h1 h2 => ?_, fun h3 => ?_, fun h3 h4 => ?_⟩
  · rw [if_pos h1]
    exact abs_pos.mpr hvx
  · rw [if_neg h1, if_pos h2]
    dsimp only
    simpa using abs_pos.mpr hvx
  · rw [if_pos h3]
    exact abs_pos.mpr hvy
  · rw [if_neg h3, if_pos h4]
    dsimp only
    simpa using abs_pos.mpr hvy

/-- C3 witness: at position (5, 100), velocity (−1, 1), deltaTime 0.1 s
    the candidate x is −5, the low clamp fires, and the reflected `vx`
    is positive. -/
theorem reflection_law_witness :
    0 < (updatePosition 100 ⟨500, 300, 100, 50⟩ ⟨-1, 1⟩ ⟨5, 100⟩ (1 / 10)).velocity.x := by
  have h := reflection_law 100 ⟨500, 300, 100, 50⟩ ⟨-1, 1⟩ ⟨5, 100⟩ (1 / 10)
    (by norm_num) (by norm_num)
  exact h.1 (by norm_num)

/-- The random index `Math.floor(r * length)` is in bounds whenever the
    list is non-empty and `r ∈ [0, 1)`. -/
lemma floor_index_lt (r : ℚ) (n : ℕ) (h0 : 0 ≤ r) (h1 : r < 1) (hn : 0 < n) :
    (⌊r * (n : ℚ)⌋).toNat < n := by
  have hnq : (0 : ℚ) < (n : ℚ) := by exact_mod_cast hn
  have hrn : r * (n : ℚ) < (n : ℚ) := by nlinarith
  have hfl : ⌊r * (n : ℚ)⌋ < (n : ℤ) := Int.floor_lt.mpr (by exact_mod_cast hrn)
  omega

/-- Picking index `⌊r·length⌋` from `l.filter (· != w)` yields a member
    of `l` that differs from `w`. -/
lemma pick_filter_ne (l : List String) (w : String) (r : ℚ)
    (h0 : 0 ≤ r) (h1 : r < 1)
    (hlen : 0 < (l.filter (fun a => a != w)).length) :
    (l.filter (fun a => a != w)).getD
        (⌊r * (((l.filter (fun a => a != w)).length : ℕ) : ℚ)⌋).toNat "" ∈ l ∧
    (l.filter (fun a => a != w)).getD
        (⌊r * (((l.filter (fun a => a != w)).length : ℕ) : ℚ)⌋).toNat "" ≠ w := by
  have hidx := floor_index_lt r (l.filter (fun a => a != w)).length h0 h1 hlen
  rw [List.getD_eq_get _ _ hidx]
  have hmem := List.get_mem (l.filter (fun a => a != w)) _ hidx
  obtain ⟨hml, hne⟩ := List.mem_filter.mp hmem
  exact ⟨hml, by simpa using hne⟩

/-- The filtered word pool is never empty: at least one of the two
    distinct pool words "self" and "values" differs from any current
    word. -/
lemma availableWords_length_pos (currentWord : String) :
    0 < (WORD_POOL.filter (fun word => word != currentWord)).length := by
  by_cases h : currentWord = "self"
  · subst h
    have hmem : "values" ∈ WORD_POOL.filter (fun word => word != "self") := by decide
    exact List.length_pos.mpr (List.ne_nil_of_mem hmem)
  · have hmem : "self" ∈ WORD_POOL.filter (fun word => word != currentWord) :=
      List.mem_filter.mpr ⟨by decide, by simpa using Ne.symm h⟩
    exact List.length_pos.mpr (List.ne_nil_of_mem hmem)

/-- The filtered color pool is never empty. -/
lemma availableColors_length_pos (currentColor : String) :
    0 < (COLOR_POOL.filter (fun color => color != currentColor)).length := by
  by_cases h : currentColor = "hsl(0 0% 100%)"
  · subst h
    have hmem : "hsl(45 100% 75%)" ∈
        COLOR_POOL.filter (fun color => color != "hsl(0 0% 100%)") := by decide
    exact List.length_pos.mpr (List.ne_nil_of_mem hmem)
  · have hmem : "hsl(0 0% 100%)" ∈
        COLOR_POOL.filter (fun color => color != currentColor) :=
      List.mem_filter.mpr ⟨by decide, by simpa using Ne.symm h⟩
    exact List.length_pos.mpr (List.ne_nil_of_mem hmem)

/-- C4: for every current word (and color) and random draws in `[0, 1)`,
    the word selected on collision differs from the current word, and in
    the color variant the selected color differs from the current
    color. -/
theorem collision_changes_label (currentWord currentColor : String)
    (r1 r2 : ℚ) (h10 : 0 ≤ r1) (h11 : r1 < 1) (h20 : 0 ≤ r2) (h21 : r2 < 1) :
    changeWord currentWord r1 ≠ currentWord ∧
    (changeWordAndColor currentWord currentColor r1 r2).1 ≠ currentWord ∧
    (changeWordAndColor currentWord currentColor r1 r2).2 ≠ currentColor := by
  have hword := pick_filter_ne WORD_POOL currentWord r1 h10 h11
    (availableWords_length_pos currentWord)
  have hcolor := pick_filter_ne COLOR_POOL currentColor r2 h20 h21
    (availableColors_length_pos currentColor)
  exact ⟨hword.2, hword.2, hcolor.2⟩

/-- C4 witness: with draws 0 the word after a change from "self" and the
    color after a change from the first pool color differ from their
    predecessors. -/
theorem collision_changes_label_witness :
    changeWord "self" 0 ≠ "self" ∧
    (changeWordAndColor "self" "hsl(0 0% 100%)" 0 0).1 ≠ "self" ∧
    (changeWordAndColor "self" "hsl(0 0% 100%)" 0 0).2 ≠ "hsl(0 0% 100%)" :=
  collision_changes_label "self" "hsl(0 0% 100%)" 0 0
    (by norm_num) (by norm_num) (by norm_num) (by norm_num)

/-- C10: selection is total: for every current word and color and draws
    in `[0, 1)`, both filtered pools are non-empty, the floor indices are
    in bounds, and the selected word/color is an element of its pool. -/
theorem selection_total (currentWord currentColor : String)
    (r1 r2 : ℚ) (h10 : 0 ≤ r1) (h11 : r1 < 1) (h20 : 0 ≤ r2) (h21 : r2 < 1) :
    0 < (WORD_POOL.filter (fun word => word != currentWord)).length ∧
    (⌊r1 * (((WORD_POOL.filter (fun word => word != currentWord)).length : ℕ) : ℚ)⌋).toNat <
      (WORD_POOL.filter (fun word => word != currentWord)).length ∧
    changeWord currentWord r1 ∈ WORD_POOL ∧
    0 < (COLOR_POOL.filter (fun color => color != currentColor)).length ∧
    (⌊r2 * (((COLOR_POOL.filter (fun color => color != currentColor)).length : ℕ) : ℚ)⌋).toNat <
      (COLOR_POOL.filter (fun color => color != currentColor)).length ∧
    (changeWordAndColor currentWord currentColor r1 r2).2 ∈ COLOR_POOL := by
  have hwlen := availableWords_length_pos currentWord
  have hclen := availableColors_length_pos currentColor
  have hword := pick_filter_ne WORD_POOL currentWord r1 h10 h11 hwlen
  have hcolor := pick_filter_ne COLOR_POOL currentColor r2 h20 h21 hclen
  exact ⟨hwlen, floor_index_lt r1 _ h10 h11 hwlen, hword.1,
    hclen, floor_index_lt r2 _ h20 h21 hclen, hcolor.1⟩

/-- C10 witness: totality at current word "growth", current color the
    cyan pool entry, draws 17/18 and 7/8. -/
theorem selection_total_witness :
    changeWord "growth" (17 / 18) ∈ WORD_POOL ∧
    (changeWordAndColor "growth" "hsl(180 55% 75%)" (17 / 18) (7 / 8)).2 ∈ COLOR_POOL := by
  have h := selection_total "growth" "hsl(180 55% 75%)" (17 / 18) (7 / 8)
    (by norm_num) (by norm_num) (by norm_num) (by norm_num)
  exact ⟨h.2.2.1, h.2.2.2.2.2⟩

/-- When the candidate stays strictly inside both bounds, the frame
    update is pure translation: no clamp, no reflection, no collision. -/
lemma updatePosition_of_insideAfter (speed : ℚ) (dimensions : Dimensions)
    (v : Velocity) (p : Position) (dt : ℚ)
    (h : insideAfter speed dimensions v p dt) :
    updatePosition speed dimensions v p dt =
      ⟨⟨p.x + v.x * speed * dt, p.y + v.y * speed * dt⟩, v, false⟩ := by
  obtain ⟨h1, h2, h3, h4⟩ := h
  simp only [updatePosition]
  rw [if_neg (not_le.mpr h1), if_neg (not_le.mpr h2),
    if_neg (not_le.mpr h3), if_neg (not_le.mpr h4)]
  rfl

/-- A clamp-free run is pure translation by the sum of the intervals. -/
lemma runFrames_of_noClampRun (speed : ℚ) (dimensions : Dimensions)
    (p : Position) (v : Velocity) (dts : List ℚ)
    (h : noClampRun speed dimensions p v dts) :
    runFrames speed dimensions p v dts =
      (⟨p.x + v.x * speed * dts.sum, p.y + v.y * speed * dts.sum⟩, v) := by
  induction dts generalizing p with
  | nil => simp [runFrames]
  | cons dt rest ih =>
      obtain ⟨hin, hrest⟩ := h
      rw [runFrames, updatePosition_of_insideAfter speed dimensions v p dt hin]
      rw [ih _ hrest]
      simp only [List.sum_cons, Prod.mk.injEq, Position.mk.injEq]
      refine ⟨⟨by ring, by ring⟩, trivial⟩

/-- In a non-empty clamp-free run the aggregate candidate (translation
    by the total elapsed time) is itself strictly inside the bounds. -/
lemma noClampRun_sum_inside (speed : ℚ) (dimensions : Dimensions)
    (p : Position) (v : Velocity) (dts : List ℚ)
    (hne : dts ≠ []) (h : noClampRun speed dimensions p v dts) :
    insideAfter speed dimensions v p dts.sum := by
  induction dts generalizing p with
  | nil => exact absurd rfl hne
  | cons dt rest ih =>
      obtain ⟨hin, hrest⟩ := h
      cases rest with
      | nil =>
          simpa [insideAfter] using hin
      | cons dt2 rest2 =>
          have hnext := ih ⟨p.x + v.x * speed * dt, p.y + v.y * speed * dt⟩
            (by simp) hrest
          obtain ⟨a1, a2, a3, a4⟩ := hnext
          dsimp only at a1 a2 a3 a4
          simp only [insideAfter, List.sum_cons] at a1 a2 a3 a4 ⊢
          refine ⟨by nlinarith [a1], by nlinarith [a2], by nlinarith [a3], by nlinarith [a4]⟩

/-- C5: for every velocity and every partition of a total elapsed time
    into positive frame intervals, if no boundary clamp fires in any
    frame then the final position equals the position after a single
    update with the summed deltaTime: motion is frame-rate
    independent. -/
theorem frame_rate_independence (speed : ℚ) (dimensions : Dimensions)
    (p : Position) (v : Velocity) (dts : List ℚ)
    (hne : dts ≠ []) (hpos : ∀ dt ∈ dts, 0 < dt)
    (h : noClampRun speed dimensions p v dts) :
    (runFrames speed dimensions p v dts).1 =
      (updatePosition speed dimensions v p dts.sum).position := by
  rw [runFrames_of_noClampRun speed dimensions p v dts h,
    updatePosition_of_insideAfter speed dimensions v p dts.sum
      (noClampRun_sum_inside speed dimensions p v dts hne h)]

/-- C5 witness: two 0.1 s frames from (50, 50) with velocity (1, 1) in a
    500×300 container with a 100×50 label land exactly where one 0.2 s
    frame lands. -/
theorem frame_rate_independence_witness :
    (runFrames 100 ⟨500, 300, 100, 50⟩ ⟨50, 50⟩ ⟨1, 1⟩ [1 / 10, 1 / 10]).1 =
      (updatePosition 100 ⟨500, 300, 100, 50⟩ ⟨1, 1⟩ ⟨50, 50⟩
        ([1 / 10, 1 / 10] : List ℚ).sum).position :=
  frame_rate_independence 100 ⟨500, 300, 100, 50⟩ ⟨50, 50⟩ ⟨1, 1⟩ [1 / 10, 1 / 10]
    (by simp) (by norm_num) (by norm_num [noClampRun, insideAfter])

/-- C6 counterexample: on the very first tick (`lastTime` sentinel 0)
    `deltaTime` is 0, but the boundary checks still run on the unchanged
    candidate: starting exactly on the left edge at (0, 100) with
    velocity (−1, 1), the first tick flips the velocity to (1, 1) and
    changes the word — it does more than record the timestamp
    baseline. -/
theorem first_tick_counterexample :
    (animate 100 ⟨500, 300, 100, 50⟩ 0 ⟨0, ⟨0, 100⟩, ⟨-1, 1⟩, "self"⟩ 16).velocity ≠
      (⟨-1, 1⟩ : Velocity) ∧
    (animate 100 ⟨500, 300, 100, 50⟩ 0 ⟨0, ⟨0, 100⟩, ⟨-1, 1⟩, "self"⟩ 16).currentWord ≠
      "self" := by
  norm_num [animate, updatePosition, changeWord, WORD_POOL]
  decide

/-- C6 (amended): on the very first tick, if the stored position is
    strictly inside the bounds, the update only records the timestamp
    baseline: position, velocity and current word are unchanged.  (On a
    boundary the zero-deltaTime candidate still triggers the clamp, so a
    spurious collision fires there.) -/
theorem first_tick_baseline (speed : ℚ) (dimensions : Dimensions) (r : ℚ)
    (s : AnimState) (currentTime : ℚ)
    (hlast : s.lastTime = 0)
    (hx0 : 0 < s.position.x)
    (hx1 : s.position.x < dimensions.width - dimensions.wordWidth)
    (hy0 : 0 < s.position.y)
    (hy1 : s.position.y < dimensions.height - dimensions.wordHeight) :
    animate speed dimensions r s currentTime =
      ⟨currentTime, s.position, s.velocity, s.currentWord⟩ := by
  have hin : insideAfter speed dimensions s.velocity s.position 0 := by
    simp only [insideAfter, mul_zero, add_zero]
    exact ⟨hx0, hx1, hy0, hy1⟩
  have heq := updatePosition_of_insideAfter speed dimensions s.velocity s.position 0 hin
  unfold animate
  rw [if_pos hlast]
  dsimp only
  rw [sub_self, zero_div, heq]
  simp [mul_zero]

/-- C6 witness: a first tick from the interior point (50, 50) leaves
    position, velocity and word untouched and stores the timestamp. -/
theorem first_tick_baseline_witness :
    animate 100 ⟨500, 300, 100, 50⟩ (1 / 2) ⟨0, ⟨50, 50⟩, ⟨1, 1⟩, "self"⟩ 16 =
      ⟨16, ⟨50, 50⟩, ⟨1, 1⟩, "self"⟩ :=
  first_tick_baseline 100 ⟨500, 300, 100, 50⟩ (1 / 2) ⟨0, ⟨50, 50⟩, ⟨1, 1⟩, "self"⟩ 16
    rfl (by norm_num) (by norm_num) (by norm_num) (by norm_num)

/-- C7 counterexample: the scheduling gate only tests the container
    width and height; with the word box still unmeasured (both zero) but
    the container measured 500×300, a frame IS scheduled, contradicting
    the claim that zero label dimensions keep the simulator idle. -/
theorem idle_gate_counterexample :
    (⟨500, 300, 0, 0⟩ : Dimensions).wordWidth = 0 ∧
    (⟨500, 300, 0, 0⟩ : Dimensions).wordHeight = 0 ∧
    startLoop true ⟨500, 300, 0, 0⟩ = true := by
  refine ⟨rfl, rfl, ?_⟩
  norm_num [startLoop]

/-- C7 (amended): when the container width or height is zero the loop
    does not start: the gate is false and a scheduling opportunity
    leaves the state unchanged (idle, no error).  Zero label dimensions
    alone do not prevent scheduling. -/
theorem idle_when_container_unmeasured (isMotionEnabled : Bool) (speed : ℚ)
    (dimensions : Dimensions) (r : ℚ) (s : AnimState) (currentTime : ℚ)
    (h : dimensions.width = 0 ∨ dimensions.height = 0) :
    startLoop isMotionEnabled dimensions = false ∧
    tick isMotionEnabled speed dimensions r s currentTime = s := by
  have hgate : startLoop isMotionEnabled dimensions = false := by
    rcases h with h | h <;> simp [startLoop, h]
  exact ⟨hgate, by simp [tick, hgate]⟩

/-- C7 witness: with a zero-width container nothing is scheduled and the
    state is untouched. -/
theorem idle_when_container_unmeasured_witness :
    startLoop true ⟨0, 300, 10, 10⟩ = false ∧
    tick true 100 ⟨0, 300, 10, 10⟩ (1 / 2) ⟨0, ⟨50, 50⟩, ⟨1, 1⟩, "self"⟩ 16 =
      ⟨0, ⟨50, 50⟩, ⟨1, 1⟩, "self"⟩ :=
  idle_when_container_unmeasured true 100 ⟨0, 300, 10, 10⟩ (1 / 2)
    ⟨0, ⟨50, 50⟩, ⟨1, 1⟩, "self"⟩ 16 (Or.inl rfl)

end SelfBounce
